import Mathlib

/-!
Verification of `src/src/self_function.py` (`basis_of`), a basis verifier built
on the external `ma1522.Matrix` linear-algebra provider.

The provider (`ma1522`) is not part of this repository's sources; its
operations (`rank`, `eye`, `row_join`, `is_linearly_independent`, `rref`) are
modelled from the specification: a matrix is a 2D rational array with `rows`
and `cols`, `rank` is the dimension of the column space, `row_join` is
horizontal concatenation, `is_linearly_independent` with the column-space flag
decides linear independence of the columns.

`basis_of` itself is translated from the source line by line.  The embedding
returns, besides the `Except` result (a raised `TypeError`/`ValueError` or the
boolean), a trace of events: each `print(...)` statement of the source emits
one `.print` event, and each call into the provider emits a corresponding
`.call*` event, in source order.  This makes the short-circuiting and
"error before any computation" claims statable.
-/

/-- Rational matrices with `Fin`-indexed rows and columns: the carrier used for
the entries of the provider's `Matrix` values. -/
abbrev GMat (m n : Nat) : Type := Matrix (Fin m) (Fin n) ℚ

namespace MA1522

/-- Modelled from the spec: the external provider's `Matrix` type — a 2D
numeric array exposing `rows` and `cols` (spec §3), with rational entries. -/
structure Matrix where
  rows : Nat
  cols : Nat
  entries : GMat rows cols

/-- Modelled from the spec (glossary): "Rank: the dimension of the column
space of a matrix".  This is exactly Mathlib's `Matrix.rank` (the finrank of
the range of `mulVecLin`, i.e. of the column space). -/
noncomputable def Matrix.rank (M : Matrix) : Nat := M.entries.rank

/-- Modelled from the spec: the provider's static identity-matrix
constructor `Matrix.eye(n)`. -/
def Matrix.eye (n : Nat) : Matrix := ⟨n, n, (1 : GMat n n)⟩

/-- Modelled from the spec: `row_join(other)` is horizontal concatenation
(spec §3).  The source only calls it when the two matrices have the same
number of rows; entries outside that case are junk (zero). -/
def Matrix.row_join (M N : Matrix) : Matrix where
  rows := M.rows
  cols := M.cols + N.cols
  entries := Matrix.of fun i k =>
    if h : (k : ℕ) < M.cols then M.entries i ⟨k, h⟩
    else if h2 : (i : ℕ) < N.rows then
      N.entries ⟨i, h2⟩ ⟨(k : ℕ) - M.cols, by have hk := k.isLt; omega⟩
    else 0

open Classical in
/-- Modelled from the spec: the provider's linear-independence test.  With the
column-space flag it decides whether the columns of the matrix are linearly
independent (spec §4.1 step 3 and glossary); otherwise it tests the rows.
The verbosity argument controls only the provider's own diagnostics. -/
noncomputable def Matrix.is_linearly_independent (M : Matrix) (colspace : Bool)
    (verbosity : Int) : Bool :=
  if colspace then
    if LinearIndependent ℚ M.entries.transpose then true else false
  else
    if LinearIndependent ℚ M.entries then true else false

/-- The matrix `T` with columns `i` and `j` swapped: the input transformation quantified
over in the order-independence property (spec §8). -/
def Matrix.swapCols (M : Matrix) (i j : Fin M.cols) : Matrix :=
  ⟨M.rows, M.cols, M.entries.submatrix id (Equiv.swap i j)⟩

/-- A Python value passed to `basis_of`: either a provider `Matrix` or any
other object (which fails the `isinstance` checks). -/
inductive PyVal where
  | mat (M : MA1522.Matrix)
  | other

/-- The exceptions `basis_of` raises: `TypeError` and `ValueError`. -/
inductive Err where
  | typeError (msg : String)
  | valueError (msg : String)

/-- Events traced while `basis_of` runs: one `.print` per `print(...)`
statement executed, and one `.call*` per call into the provider, in source
order. -/
inductive Ev where
  | print
  | callEye (n : Nat)
  | callRank (M : MA1522.Matrix)
  | callRref (M : MA1522.Matrix)
  | callIndependent (M : MA1522.Matrix) (colspace : Bool) (verbosity : Int)
  | callRowJoin (M N : MA1522.Matrix)

/-- Holds `true` on the independence-test provider call. -/
def Ev.isIndependenceCall : Ev → Bool
  | .callIndependent _ _ _ => true
  | _ => false

/-- Holds `true` on the `row_join` provider call. -/
def Ev.isJoinCall : Ev → Bool
  | .callRowJoin _ _ => true
  | _ => false

/-- Holds `true` when the result is a raised `TypeError`. -/
def isTypeError : Except Err Bool → Bool
  | .error (.typeError _) => true
  | _ => false

/-- Holds `true` when the result is a raised `ValueError` (the dimension-mismatch
error). -/
def isDimError : Except Err Bool → Bool
  | .error (.valueError _) => true
  | _ => false

/-- The body of `basis_of` after both `isinstance` checks have passed:
lines 30–124 of the source, with `t`, `v` the validated matrices and `log0`
the events already emitted (the default-`V` block).  Each `print` of the
source is one `.print` event; provider calls emit `.call*` events at the
point the source performs them. -/
noncomputable def basis_of_checked (t v : MA1522.Matrix) (verbosity : Int)
    (log0 : List Ev) : Except Err Bool × List Ev :=
  if t.rows ≠ v.rows then
    (.error (.valueError "T and V must have the same number of rows"), log0)
  else
    let log1 := log0 ++ (if verbosity ≥ 1 then List.replicate 3 Ev.print else [])
    let dim_V := v.rank
    let num_vectors_T := t.cols
    let log2 := log1 ++ [Ev.callRank v] ++
      (if verbosity ≥ 1 then List.replicate 3 Ev.print else [])
    if num_vectors_T ≠ dim_V then
      (.ok false, log2 ++ (if verbosity ≥ 1 then List.replicate 5 Ev.print else []))
    else
      let log3 := log2 ++ (if verbosity ≥ 1 then List.replicate 2 Ev.print else [])
      let is_independent := t.is_linearly_independent true 0
      let log4 := log3 ++ [Ev.callIndependent t true 0]
      if is_independent = false then
        (.ok false, log4 ++
          (if verbosity ≥ 1 then
            [Ev.print] ++
              (if verbosity ≥ 2 then [Ev.print, Ev.callRref t, Ev.print, Ev.print] else []) ++
              List.replicate 4 Ev.print
          else []))
      else
        let log5 := log4 ++
          (if verbosity ≥ 1 then
            [Ev.print] ++
              (if verbosity ≥ 2 then [Ev.callRref t, Ev.print, Ev.print] else [])
          else [])
        let log6 := log5 ++ (if verbosity ≥ 1 then List.replicate 2 Ev.print else [])
        let combined := t.row_join v
        let rank_combined := combined.rank
        let log7 := log6 ++ [Ev.callRowJoin t v, Ev.callRank combined] ++
          (if verbosity ≥ 2 then [Ev.callRank t, Ev.print, Ev.print, Ev.print] else [])
        if rank_combined ≠ dim_V then
          (.ok false, log7 ++ (if verbosity ≥ 1 then List.replicate 6 Ev.print else []))
        else
          (.ok true, log7 ++ (if verbosity ≥ 1 then List.replicate 10 Ev.print else []))

/-- Translation of `basis_of(T, V=None, verbosity=0)` from
`src/src/self_function.py`.  The `isinstance` checks become matches on
`PyVal`; `V is None` becomes a match on `Option`; the defaulted `V` is
`Matrix.eye(T.rows)` (with its `callEye` event and, at verbosity ≥ 1, the
"defaulting" print).  The result pairs the raised exception or returned
boolean with the event trace. -/
noncomputable def basis_of (T : PyVal) (V : Option PyVal) (verbosity : Int) :
    Except Err Bool × List Ev :=
  match T with
  | .other => (.error (.typeError "T must be a Matrix object"), [])
  | .mat t =>
    match V with
    | none =>
      basis_of_checked t (Matrix.eye t.rows) verbosity
        ([Ev.callEye t.rows] ++ (if verbosity ≥ 1 then [Ev.print] else []))
    | some .other => (.error (.typeError "V must be a Matrix object"), [])
    | some (.mat v) => basis_of_checked t v verbosity []

/-- The pure decision part of `basis_of_checked`: the same cascade of checks
with the trace stripped, used to characterise the first component of the
result. -/
noncomputable def basis_of_result_checked (t v : MA1522.Matrix) : Except Err Bool :=
  if t.rows ≠ v.rows then
    .error (.valueError "T and V must have the same number of rows")
  else if t.cols ≠ v.rank then .ok false
  else if t.is_linearly_independent true 0 = false then .ok false
  else if (t.row_join v).rank ≠ v.rank then .ok false
  else .ok true

/-- The pure decision part of `basis_of`. -/
noncomputable def basis_of_result (T : PyVal) (V : Option PyVal) : Except Err Bool :=
  match T with
  | .other => .error (.typeError "T must be a Matrix object")
  | .mat t =>
    match V with
    | none => basis_of_result_checked t (Matrix.eye t.rows)
    | some .other => .error (.typeError "V must be a Matrix object")
    | some (.mat v) => basis_of_result_checked t v

/-- Spec-variant of `basis_of_checked` (spec §4.1 step 3 and §9 open
question): identical to the source's body except that the independence test
is the direct comparison `rank(T) == cols(T)` (tracing the `rank` call it
performs) instead of the provider's `is_linearly_independent` test. -/
noncomputable def basis_of_checked_rankCheck (t v : MA1522.Matrix) (verbosity : Int)
    (log0 : List Ev) : Except Err Bool × List Ev :=
  if t.rows ≠ v.rows then
    (.error (.valueError "T and V must have the same number of rows"), log0)
  else
    let log1 := log0 ++ (if verbosity ≥ 1 then List.replicate 3 Ev.print else [])
    let dim_V := v.rank
    let num_vectors_T := t.cols
    let log2 := log1 ++ [Ev.callRank v] ++
      (if verbosity ≥ 1 then List.replicate 3 Ev.print else [])
    if num_vectors_T ≠ dim_V then
      (.ok false, log2 ++ (if verbosity ≥ 1 then List.replicate 5 Ev.print else []))
    else
      let log3 := log2 ++ (if verbosity ≥ 1 then List.replicate 2 Ev.print else [])
      let is_independent := decide (t.rank = t.cols)
      let log4 := log3 ++ [Ev.callRank t]
      if is_independent = false then
        (.ok false, log4 ++
          (if verbosity ≥ 1 then
            [Ev.print] ++
              (if verbosity ≥ 2 then [Ev.print, Ev.callRref t, Ev.print, Ev.print] else []) ++
              List.replicate 4 Ev.print
          else []))
      else
        let log5 := log4 ++
          (if verbosity ≥ 1 then
            [Ev.print] ++
              (if verbosity ≥ 2 then [Ev.callRref t, Ev.print, Ev.print] else [])
          else [])
        let log6 := log5 ++ (if verbosity ≥ 1 then List.replicate 2 Ev.print else [])
        let combined := t.row_join v
        let rank_combined := combined.rank
        let log7 := log6 ++ [Ev.callRowJoin t v, Ev.callRank combined] ++
          (if verbosity ≥ 2 then [Ev.callRank t, Ev.print, Ev.print, Ev.print] else [])
        if rank_combined ≠ dim_V then
          (.ok false, log7 ++ (if verbosity ≥ 1 then List.replicate 6 Ev.print else []))
        else
          (.ok true, log7 ++ (if verbosity ≥ 1 then List.replicate 10 Ev.print else []))

/-- Spec-variant of `basis_of` built on `basis_of_checked_rankCheck`. -/
noncomputable def basis_of_rankCheck (T : PyVal) (V : Option PyVal) (verbosity : Int) :
    Except Err Bool × List Ev :=
  match T with
  | .other => (.error (.typeError "T must be a Matrix object"), [])
  | .mat t =>
    match V with
    | none =>
      basis_of_checked_rankCheck t (Matrix.eye t.rows) verbosity
        ([Ev.callEye t.rows] ++ (if verbosity ≥ 1 then [Ev.print] else []))
    | some .other => (.error (.typeError "V must be a Matrix object"), [])
    | some (.mat v) => basis_of_checked_rankCheck t v verbosity []

end MA1522

/-! ## Helper lemmas -/

namespace MA1522

/-- The first component of `basis_of_checked` is the pure decision
`basis_of_result_checked`: the event log never feeds back into the result. -/
theorem fst_basis_of_checked (t v : MA1522.Matrix) (verb : Int) (log0 : List Ev) :
    (basis_of_checked t v verb log0).1 = basis_of_result_checked t v := by
  simp only [basis_of_checked, basis_of_result_checked]
  split_ifs <;> rfl

/-- The first component of `basis_of` is the pure decision `basis_of_result`. -/
theorem fst_basis_of (T : PyVal) (V : Option PyVal) (verb : Int) :
    (basis_of T V verb).1 = basis_of_result T V := by
  cases T with
  | other => rfl
  | mat t =>
    cases V with
    | none => exact fst_basis_of_checked ..
    | some pv =>
      cases pv with
      | other => rfl
      | mat v => exact fst_basis_of_checked ..

/-- The provider's rank of the identity matrix `eye n` is `n`. -/
theorem Matrix.rank_eye (n : Nat) : (MA1522.Matrix.eye n).rank = n := by
  simp [MA1522.Matrix.eye, MA1522.Matrix.rank]

/-- The columns of the entry matrix are linearly independent iff the rank
equals the number of columns. -/
theorem Matrix.linearIndependent_cols_iff (M : MA1522.Matrix) :
    LinearIndependent ℚ M.entries.transpose ↔ M.rank = M.cols := by
  rw [linearIndependent_iff_card_eq_finrank_span, Set.finrank,
    ← Matrix.rank_eq_finrank_span_cols, Fintype.card_fin]
  exact eq_comm

/-- The provider's column-space independence test agrees with the direct
comparison `rank == cols`. -/
theorem Matrix.is_linearly_independent_true (M : MA1522.Matrix) (verb : Int) :
    M.is_linearly_independent true verb = decide (M.rank = M.cols) := by
  rw [MA1522.Matrix.is_linearly_independent, if_pos rfl]
  by_cases h : LinearIndependent ℚ M.entries.transpose
  · rw [if_pos h, eq_comm, decide_eq_true_eq]
    exact (Matrix.linearIndependent_cols_iff M).mp h
  · rw [if_neg h, eq_comm, decide_eq_false_iff_not]
    exact fun hr => h ((Matrix.linearIndependent_cols_iff M).mpr hr)

end MA1522

namespace MA1522

/-- Rank is invariant under a permutation of the columns of the entry
matrix. -/
theorem rank_submatrix_colEquiv {m n : Nat} (A : GMat m n) (e : Fin n ≃ Fin n) :
    (A.submatrix id e).rank = A.rank := by
  rw [Matrix.rank_eq_finrank_span_cols, Matrix.rank_eq_finrank_span_cols]
  have h1 : (A.submatrix id e).transpose = A.transpose ∘ e := rfl
  rw [h1, e.surjective.range_comp]

/-- The operation `swapCols` preserves the row count. -/
theorem Matrix.rows_swapCols (M : MA1522.Matrix) (i j : Fin M.cols) :
    (M.swapCols i j).rows = M.rows := rfl

/-- The operation `swapCols` preserves the column count. -/
theorem Matrix.cols_swapCols (M : MA1522.Matrix) (i j : Fin M.cols) :
    (M.swapCols i j).cols = M.cols := rfl

/-- The operation `swapCols` preserves the rank. -/
theorem Matrix.rank_swapCols (M : MA1522.Matrix) (i j : Fin M.cols) :
    (M.swapCols i j).rank = M.rank :=
  rank_submatrix_colEquiv M.entries (Equiv.swap i j)

/-- Joining a matrix with itself does not change the rank: the columns of
`M.row_join M` are exactly the columns of `M`, twice over. -/
theorem Matrix.rank_row_join_self (M : MA1522.Matrix) :
    (M.row_join M).rank = M.rank := by
  rw [MA1522.Matrix.rank, MA1522.Matrix.rank,
    Matrix.rank_eq_finrank_span_cols, Matrix.rank_eq_finrank_span_cols]
  have hr : Set.range (M.row_join M).entries.transpose = Set.range M.entries.transpose := by
    apply Set.Subset.antisymm
    · rintro x ⟨k, rfl⟩
      by_cases hk : (k : ℕ) < M.cols
      · refine ⟨⟨(k : ℕ), hk⟩, ?_⟩
        funext r
        simp [MA1522.Matrix.row_join, hk]
      · have hk2 : (k : ℕ) - M.cols < M.cols := by
          have h3 : (k : ℕ) < M.cols + M.cols := k.isLt
          omega
        refine ⟨⟨(k : ℕ) - M.cols, hk2⟩, ?_⟩
        funext r
        simp [MA1522.Matrix.row_join, hk, r.isLt]
    · rintro x ⟨j, rfl⟩
      refine ⟨Fin.castAdd M.cols j, ?_⟩
      funext r
      have hj : ((Fin.castAdd M.cols j : Fin (M.cols + M.cols)) : ℕ) < M.cols := j.isLt
      simp [MA1522.Matrix.row_join, hj]
  rw [hr]
  rfl


end MA1522

namespace MA1522

/-- Swapping two columns of `t` before joining with `v` is the same as
permuting the corresponding columns of the joined matrix. -/
theorem Matrix.row_join_swapCols_entries (t v : MA1522.Matrix) (i j : Fin t.cols) :
    ((t.swapCols i j).row_join v).entries =
      (t.row_join v).entries.submatrix id
        (Equiv.swap (Fin.castAdd v.cols i) (Fin.castAdd v.cols j)) := by
  have key : ∀ (r : Fin t.rows) (k : Fin (t.cols + v.cols)),
      ((t.swapCols i j).row_join v).entries r k =
      (t.row_join v).entries r (Equiv.swap (Fin.castAdd v.cols i) (Fin.castAdd v.cols j) k) := by
    intro r k
    by_cases hki : k = Fin.castAdd v.cols i
    · subst hki
      rw [Equiv.swap_apply_left]
      have hi : ((Fin.castAdd v.cols i : Fin (t.cols + v.cols)) : ℕ) < t.cols := i.isLt
      have hj : ((Fin.castAdd v.cols j : Fin (t.cols + v.cols)) : ℕ) < t.cols := j.isLt
      simp only [MA1522.Matrix.row_join, MA1522.Matrix.swapCols, Matrix.of_apply]
      rw [dif_pos hi, dif_pos hj]
      simp only [Matrix.submatrix_apply, id_eq]
      have e1 : (⟨((Fin.castAdd v.cols i : Fin (t.cols + v.cols)) : ℕ), hi⟩ : Fin t.cols) = i := by
        apply Fin.ext
        simp
      have e2 : (⟨((Fin.castAdd v.cols j : Fin (t.cols + v.cols)) : ℕ), hj⟩ : Fin t.cols) = j := by
        apply Fin.ext
        simp
      rw [e1, e2, Equiv.swap_apply_left]
    · by_cases hkj : k = Fin.castAdd v.cols j
      · subst hkj
        rw [Equiv.swap_apply_right]
        have hi : ((Fin.castAdd v.cols i : Fin (t.cols + v.cols)) : ℕ) < t.cols := i.isLt
        have hj : ((Fin.castAdd v.cols j : Fin (t.cols + v.cols)) : ℕ) < t.cols := j.isLt
        simp only [MA1522.Matrix.row_join, MA1522.Matrix.swapCols, Matrix.of_apply]
        rw [dif_pos hi, dif_pos hj]
        simp only [Matrix.submatrix_apply, id_eq]
        have e1 : (⟨((Fin.castAdd v.cols i : Fin (t.cols + v.cols)) : ℕ), hi⟩ : Fin t.cols) = i := by
          apply Fin.ext
          simp
        have e2 : (⟨((Fin.castAdd v.cols j : Fin (t.cols + v.cols)) : ℕ), hj⟩ : Fin t.cols) = j := by
          apply Fin.ext
          simp
        rw [e2, e1, Equiv.swap_apply_right]
      · rw [Equiv.swap_apply_of_ne_of_ne hki hkj]
        simp only [MA1522.Matrix.row_join, MA1522.Matrix.swapCols, Matrix.of_apply]
        by_cases hk : (k : ℕ) < t.cols
        · rw [dif_pos hk, dif_pos hk]
          simp only [Matrix.submatrix_apply, id_eq]
          have h1 : (⟨(k : ℕ), hk⟩ : Fin t.cols) ≠ i := by
            intro he
            apply hki
            apply Fin.ext
            simpa using congrArg Fin.val he
          have h2 : (⟨(k : ℕ), hk⟩ : Fin t.cols) ≠ j := by
            intro he
            apply hkj
            apply Fin.ext
            simpa using congrArg Fin.val he
          rw [Equiv.swap_apply_of_ne_of_ne h1 h2]
        · rw [dif_neg hk, dif_neg hk]
  funext r k
  exact key r k

/-- Swapping two columns of `t` does not change the rank of `[t | v]`. -/
theorem Matrix.rank_row_join_swapCols (t v : MA1522.Matrix) (i j : Fin t.cols) :
    ((t.swapCols i j).row_join v).rank = (t.row_join v).rank := by
  rw [MA1522.Matrix.rank, MA1522.Matrix.rank, Matrix.row_join_swapCols_entries]
  exact rank_submatrix_colEquiv _ _

/-- The pure decision cascade is unchanged by swapping two columns of `t`. -/
theorem basis_of_result_checked_swapCols (t v : MA1522.Matrix) (i j : Fin t.cols) :
    basis_of_result_checked (t.swapCols i j) v = basis_of_result_checked t v := by
  simp only [basis_of_result_checked, Matrix.rows_swapCols, Matrix.cols_swapCols,
    Matrix.is_linearly_independent_true, Matrix.rank_swapCols, Matrix.rank_row_join_swapCols]

end MA1522

namespace MA1522

/-- When the row counts agree, the decision cascade equals the conjunction of
the three rank conditions. -/
theorem basis_of_result_checked_eq (t v : MA1522.Matrix) (h : t.rows = v.rows) :
    basis_of_result_checked t v =
      .ok (decide (t.cols = v.rank) && decide (t.rank = t.cols) &&
        decide ((t.row_join v).rank = v.rank)) := by
  unfold basis_of_result_checked
  rw [if_neg (not_not_intro h), Matrix.is_linearly_independent_true]
  split_ifs with h1 h2 h3 <;> simp_all

/-- The decision cascade never produces a `TypeError`. -/
theorem isTypeError_basis_of_result_checked (t v : MA1522.Matrix) :
    isTypeError (basis_of_result_checked t v) = false := by
  unfold basis_of_result_checked
  split_ifs <;> rfl

/-- The decision cascade raises the dimension error exactly on mismatched row
counts. -/
theorem isDimError_basis_of_result_checked (t v : MA1522.Matrix) :
    isDimError (basis_of_result_checked t v) = decide (t.rows ≠ v.rows) := by
  unfold basis_of_result_checked
  split_ifs with h1 h2 h3 <;> simp_all [isDimError]

/-- The first component of the spec-variant body also equals the decision
cascade: the two independence tests agree. -/
theorem fst_basis_of_checked_rankCheck (t v : MA1522.Matrix) (verb : Int) (log0 : List Ev) :
    (basis_of_checked_rankCheck t v verb log0).1 = basis_of_result_checked t v := by
  simp only [basis_of_checked_rankCheck, basis_of_result_checked,
    Matrix.is_linearly_independent_true]
  split_ifs <;> rfl

/-- The first component of the spec-variant `basis_of_rankCheck` is the same
pure decision `basis_of_result`. -/
theorem fst_basis_of_rankCheck (T : PyVal) (V : Option PyVal) (verb : Int) :
    (basis_of_rankCheck T V verb).1 = basis_of_result T V := by
  cases T with
  | other => rfl
  | mat t =>
    cases V with
    | none => exact fst_basis_of_checked_rankCheck ..
    | some pv =>
      cases pv with
      | other => rfl
      | mat v => exact fst_basis_of_checked_rankCheck ..

end MA1522

/-- C1: for matrices `T`, `V` with equal row counts, `basis_of` returns `true`
iff `cols(T) = rank(V)`, `rank(T) = cols(T)` and `rank([T|V]) = rank(V)`. -/
theorem c1_basis_of_true_iff (t v : MA1522.Matrix) (h : t.rows = v.rows) (verb : Int) :
    (MA1522.basis_of (.mat t) (some (.mat v)) verb).1 = .ok true ↔
      (t.cols = v.rank ∧ t.rank = t.cols ∧ (t.row_join v).rank = v.rank) := by
  rw [MA1522.fst_basis_of]
  show MA1522.basis_of_result_checked t v = .ok true ↔ _
  rw [MA1522.basis_of_result_checked_eq t v h]
  simp [and_assoc]

/-- C1 witness: instantiated at `T = V = eye 2`. -/
theorem c1_witness :
    (MA1522.Matrix.eye 2).rows = (MA1522.Matrix.eye 2).rows ∧
      ((MA1522.basis_of (.mat (MA1522.Matrix.eye 2)) (some (.mat (MA1522.Matrix.eye 2))) 0).1
          = .ok true ↔
        ((MA1522.Matrix.eye 2).cols = (MA1522.Matrix.eye 2).rank ∧
          (MA1522.Matrix.eye 2).rank = (MA1522.Matrix.eye 2).cols ∧
          ((MA1522.Matrix.eye 2).row_join (MA1522.Matrix.eye 2)).rank
            = (MA1522.Matrix.eye 2).rank)) :=
  ⟨rfl, c1_basis_of_true_iff (MA1522.Matrix.eye 2) (MA1522.Matrix.eye 2) rfl 0⟩

/-- C2: omitting `V` returns the same result as passing the identity matrix of
size `rows(T)` explicitly, at every verbosity level. -/
theorem c2_default_is_identity (t : MA1522.Matrix) (verb : Int) :
    (MA1522.basis_of (.mat t) none verb).1 =
      (MA1522.basis_of (.mat t) (some (.mat (MA1522.Matrix.eye t.rows))) verb).1 := by
  rw [MA1522.fst_basis_of, MA1522.fst_basis_of]
  rfl

/-- C5: the returned result is the same for every two verbosity levels — the
verbosity argument only influences the diagnostic trace, never the verdict. -/
theorem c5_verbosity_noninterference (T : MA1522.PyVal) (V : Option MA1522.PyVal)
    (v1 v2 : Int) :
    (MA1522.basis_of T V v1).1 = (MA1522.basis_of T V v2).1 := by
  rw [MA1522.fst_basis_of, MA1522.fst_basis_of]

/-- C3: a `TypeError` is raised exactly when `T` is not a `Matrix` or a
supplied `V` is not one, and in that case the trace is empty — nothing is
printed and no rank/RREF/independence computation has run; on valid inputs no
`TypeError` is raised. -/
theorem c3_type_error (T : MA1522.PyVal) (V : Option MA1522.PyVal) (verb : Int) :
    (MA1522.isTypeError (MA1522.basis_of T V verb).1 = true ↔
      (T = MA1522.PyVal.other ∨ V = some MA1522.PyVal.other)) ∧
    ((T = MA1522.PyVal.other ∨ V = some MA1522.PyVal.other) →
      (MA1522.basis_of T V verb).2 = []) := by
  cases T with
  | other => exact ⟨⟨fun _ => Or.inl rfl, fun _ => rfl⟩, fun _ => rfl⟩
  | mat t =>
    cases V with
    | none =>
      refine ⟨⟨fun hE => ?_, fun hO => ?_⟩, fun hO => ?_⟩
      · rw [show (MA1522.basis_of (.mat t) none verb).1
            = MA1522.basis_of_result_checked t (MA1522.Matrix.eye t.rows)
          from MA1522.fst_basis_of ..] at hE
        rw [MA1522.isTypeError_basis_of_result_checked] at hE
        exact absurd hE (by simp)
      · rcases hO with hO | hO <;> exact absurd hO (by simp)
      · rcases hO with hO | hO <;> exact absurd hO (by simp)
    | some pv =>
      cases pv with
      | other => exact ⟨⟨fun _ => Or.inr rfl, fun _ => rfl⟩, fun _ => rfl⟩
      | mat v =>
        refine ⟨⟨fun hE => ?_, fun hO => ?_⟩, fun hO => ?_⟩
        · rw [show (MA1522.basis_of (.mat t) (some (.mat v)) verb).1
              = MA1522.basis_of_result_checked t v
            from MA1522.fst_basis_of ..] at hE
          rw [MA1522.isTypeError_basis_of_result_checked] at hE
          exact absurd hE (by simp)
        · rcases hO with hO | hO <;> exact absurd hO (by simp)
        · rcases hO with hO | hO <;> exact absurd hO (by simp)

/-- C3 witness: instantiated at `T` not a matrix. -/
theorem c3_witness :
    (MA1522.PyVal.other = MA1522.PyVal.other ∨
        (none : Option MA1522.PyVal) = some MA1522.PyVal.other) ∧
      (MA1522.basis_of MA1522.PyVal.other none 0).2 = [] :=
  ⟨Or.inl rfl, (c3_type_error MA1522.PyVal.other none 0).2 (Or.inl rfl)⟩

/-- C4: for matrices `T`, `V`, the dimension-mismatch `ValueError` is raised
exactly when `T.rows ≠ V.rows`, and in that case the trace is empty — the
error comes before any of the three checks; on matching row counts no
dimension error is raised. -/
theorem c4_dimension_error (t v : MA1522.Matrix) (verb : Int) :
    (MA1522.isDimError (MA1522.basis_of (.mat t) (some (.mat v)) verb).1 = true ↔
      t.rows ≠ v.rows) ∧
    (t.rows ≠ v.rows → (MA1522.basis_of (.mat t) (some (.mat v)) verb).2 = []) := by
  constructor
  · rw [show (MA1522.basis_of (.mat t) (some (.mat v)) verb).1
        = MA1522.basis_of_result_checked t v
      from MA1522.fst_basis_of ..]
    rw [MA1522.isDimError_basis_of_result_checked]
    simp
  · intro hne
    show (MA1522.basis_of_checked t v verb []).2 = []
    unfold MA1522.basis_of_checked
    rw [if_pos hne]

/-- C4 witness: instantiated at a 1-row and a 2-row matrix. -/
theorem c4_witness :
    (MA1522.Matrix.mk 1 1 0).rows ≠ (MA1522.Matrix.mk 2 1 0).rows ∧
      (MA1522.basis_of (.mat (MA1522.Matrix.mk 1 1 0))
        (some (.mat (MA1522.Matrix.mk 2 1 0))) 0).2 = [] :=
  ⟨by decide,
    (c4_dimension_error (MA1522.Matrix.mk 1 1 0) (MA1522.Matrix.mk 2 1 0) 0).2 (by decide)⟩

/-- C7: replacing the provider's column-space independence test by the direct
comparison `rank(T) == cols(T)` never changes the returned result, on all
inputs. -/
theorem c7_rank_check_equivalent (T : MA1522.PyVal) (V : Option MA1522.PyVal) (verb : Int) :
    (MA1522.basis_of_rankCheck T V verb).1 = (MA1522.basis_of T V verb).1 := by
  rw [MA1522.fst_basis_of_rankCheck, MA1522.fst_basis_of]

/-- C10: with `V` omitted, `basis_of` always returns a boolean for every
matrix `T` — the `V` type check and dimension check cannot fire. -/
theorem c10_default_never_raises (t : MA1522.Matrix) (verb : Int) :
    ∃ b, (MA1522.basis_of (.mat t) none verb).1 = .ok b := by
  rw [show (MA1522.basis_of (.mat t) none verb).1
      = MA1522.basis_of_result_checked t (MA1522.Matrix.eye t.rows)
    from MA1522.fst_basis_of ..]
  unfold MA1522.basis_of_result_checked
  split_ifs with h0 h1 h2 h3 <;> first | exact absurd rfl h0 | exact ⟨_, rfl⟩

namespace MA1522

/-- The column count of `eye n` is `n`. -/
theorem Matrix.cols_eye (n : Nat) : (Matrix.eye n).cols = n := rfl

end MA1522

/-- C6: with matching row counts and `cols(T) ≠ rank(V)`, `basis_of` returns
`false`, and its trace contains neither the independence-test call nor the
`row_join` call — the checks short-circuit at the cardinality check. -/
theorem c6_cardinality_short_circuit (t v : MA1522.Matrix) (h : t.rows = v.rows)
    (hc : t.cols ≠ v.rank) (verb : Int) :
    (MA1522.basis_of (.mat t) (some (.mat v)) verb).1 = .ok false ∧
    ((MA1522.basis_of (.mat t) (some (.mat v)) verb).2.all
      (fun e => !e.isIndependenceCall && !e.isJoinCall)) = true := by
  constructor
  · rw [show (MA1522.basis_of (.mat t) (some (.mat v)) verb).1
        = MA1522.basis_of_result_checked t v
      from MA1522.fst_basis_of ..]
    unfold MA1522.basis_of_result_checked
    rw [if_neg (not_not_intro h), if_pos hc]
  · show ((MA1522.basis_of_checked t v verb []).2.all _) = true
    have hrr : ¬(t.rows ≠ v.rows) := not_not_intro h
    simp only [MA1522.basis_of_checked, if_neg hrr, if_pos hc]
    split_ifs <;> rfl

/-- C6 witness: a single-column 2-row matrix against the default plane. -/
theorem c6_witness :
    ((MA1522.Matrix.mk 2 1 0).rows = (MA1522.Matrix.eye 2).rows ∧
      (MA1522.Matrix.mk 2 1 0).cols ≠ (MA1522.Matrix.eye 2).rank) ∧
    ((MA1522.basis_of (.mat (MA1522.Matrix.mk 2 1 0))
        (some (.mat (MA1522.Matrix.eye 2))) 0).1 = .ok false ∧
      ((MA1522.basis_of (.mat (MA1522.Matrix.mk 2 1 0))
        (some (.mat (MA1522.Matrix.eye 2))) 0).2.all
        (fun e => !e.isIndependenceCall && !e.isJoinCall)) = true) :=
  ⟨⟨rfl, by simp [MA1522.Matrix.rank_eye]⟩,
    c6_cardinality_short_circuit (MA1522.Matrix.mk 2 1 0) (MA1522.Matrix.eye 2) rfl
      (by simp [MA1522.Matrix.rank_eye]) 0⟩

/-- C8: with matching row counts, swapping any two columns of `T` leaves the
verifier's result unchanged. -/
theorem c8_swap_columns (t v : MA1522.Matrix) (h : t.rows = v.rows)
    (i j : Fin t.cols) (verb : Int) :
    (MA1522.basis_of (.mat (t.swapCols i j)) (some (.mat v)) verb).1 =
      (MA1522.basis_of (.mat t) (some (.mat v)) verb).1 := by
  rw [MA1522.fst_basis_of, MA1522.fst_basis_of]
  exact MA1522.basis_of_result_checked_swapCols t v i j

/-- C8 witness: swapping the two columns of the 2×2 identity against itself. -/
theorem c8_witness :
    (MA1522.Matrix.eye 2).rows = (MA1522.Matrix.eye 2).rows ∧
      (MA1522.basis_of
          (.mat ((MA1522.Matrix.eye 2).swapCols ⟨0, by decide⟩ ⟨1, by decide⟩))
          (some (.mat (MA1522.Matrix.eye 2))) 0).1 =
        (MA1522.basis_of (.mat (MA1522.Matrix.eye 2))
          (some (.mat (MA1522.Matrix.eye 2))) 0).1 :=
  ⟨rfl, c8_swap_columns (MA1522.Matrix.eye 2) (MA1522.Matrix.eye 2) rfl
    ⟨0, by decide⟩ ⟨1, by decide⟩ 0⟩

/-- C9: the standard basis of R² is certified — `basis_of` on the 2×2 identity
with `V` omitted returns `true` at every verbosity. -/
theorem c9_identity_basis (verb : Int) :
    (MA1522.basis_of (.mat (MA1522.Matrix.eye 2)) none verb).1 = .ok true := by
  rw [MA1522.fst_basis_of]
  show MA1522.basis_of_result_checked (MA1522.Matrix.eye 2) (MA1522.Matrix.eye 2) = .ok true
  rw [MA1522.basis_of_result_checked_eq _ _ rfl]
  simp only [MA1522.Matrix.cols_eye, MA1522.Matrix.rank_eye,
    MA1522.Matrix.rank_row_join_self]
  rfl
